import Mathlib

/-!
Shallow embedding of the clinic-management repository
(`clinic_system_mysql` and `clinic_system_mongodb_neo4j`) used to check the
natural-language specification against the code.  Python functions are
translated to executable Lean functions; each backing store is modelled as an
explicit state value (association lists / lists of rows), and fallible calls
return `Option` or a result inductive.  Unicode-sensitive pieces of the
Python runtime (the regex class `\d`, `str.lower`, `str.strip`) are modelled
by their ASCII behaviour via `Char.isDigit`, `Char.toLower`, `pyStrip`.
-/

namespace ClinicSpec

/-! ## Python string helpers

Character-list implementations of the `str` methods the code uses, so that
every definition evaluates by kernel reduction. -/

/-- Python `str.lower` (ASCII model). -/
def pyLower (s : String) : String :=
  String.mk (s.data.map Char.toLower)

/-- Whitespace stripped by Python `str.strip()` with no argument. -/
def isPySpace (c : Char) : Bool :=
  c == ' ' || c == '\t' || c == '\n' || c == '\r' || c == '\x0b' || c == '\x0c'

/-- Python `str.strip()`. -/
def pyStrip (s : String) : String :=
  String.mk (((s.data.dropWhile isPySpace).reverse.dropWhile isPySpace).reverse)

/-- Python `str.startswith`. -/
def pyStartsWith (s pre : String) : Bool :=
  pre.data.isPrefixOf s.data

/-! ## Association-list helpers (shared) -/

/-- Lookup in an association list keyed by strings (models a Python dict /
Neo4j node property map / filesystem read). First binding wins. -/
def alookup {α : Type} : List (String × α) → String → Option α
  | [], _ => none
  | (k, v) :: rest, key => if k = key then some v else alookup rest key

/-- Overwrite (or add) a binding in an association list; models a Cypher
`SET node.field = value` on a property map. -/
def aset {α : Type} : List (String × α) → String → α → List (String × α)
  | [], key, v => [(key, v)]
  | (k, w) :: rest, key, v =>
      if k = key then (k, v) :: rest else (k, w) :: aset rest key v

/-! ## Sequence allocator (`clinic_v2_withoutgui.py`, Neo4j variant)

`_ensure_constraints_and_counters` MERGEs a single `Counter {name:'global_ids'}`
node whose properties (one per entity-type label, lower-cased) start at 1.
`_next_id(label)` runs

    MATCH (ctr:Counter {name:'global_ids'})
    WITH ctr, ctr.<field> AS current
    SET ctr.<field> = coalesce(current,1) + 1
    RETURN coalesce(current,1) AS id

and returns `int(rec["id"]) if rec else 1`.  The Counter node is modelled as
`Option CounterFields`: `none` when the node does not exist (the MATCH then
yields no record, so no SET runs and the Python falls back to returning 1). -/

/-- Property map of the `Counter {name:'global_ids'}` node. -/
abbrev CounterFields := List (String × Nat)

/-- One call of `_next_id(label)`: returns the allocated id and the Counter
state afterwards. -/
def next_id (label : String) (ctr : Option CounterFields) : Nat × Option CounterFields :=
  match ctr with
  | none => (1, none)
  | some fs =>
      let field := pyLower label
      let cur := (alookup fs field).getD 1
      (cur, some (aset fs field (cur + 1)))

/-- N successive calls of `_next_id(label)`: the list of returned ids and the
final Counter state. -/
def alloc_list (label : String) (ctr : Option CounterFields) : Nat → List Nat × Option CounterFields
  | 0 => ([], ctr)
  | n + 1 =>
      let r1 := next_id label ctr
      let r2 := alloc_list label r1.2 n
      (r1.1 :: r2.1, r2.2)

/-! ## Messaging: conversations (`mongodb_messaging.py`)

`get_or_create_conversation(p1, p2)` first runs
`conversations.find_one({"participants": {"$all": [p1, p2]}})` (a conversation
matches when its `participants` array contains both ids, in any order) and
returns the found `_id`; otherwise it inserts
`{"participants": [p1, p2], ...}` and returns the new `_id`.  MongoDB ObjectId
generation is modelled by a counter in the state; `find_one` returns the first
matching document in collection order. -/

structure Conversation where
  cid : Nat
  participants : List String
deriving DecidableEq

structure ConvState where
  convs : List Conversation
  next_oid : Nat
deriving DecidableEq

/-- The `$all: [a, b]` participant filter of `find_one`. -/
def participantsMatch (a b : String) (c : Conversation) : Bool :=
  c.participants.contains a && c.participants.contains b

/-- `get_or_create_conversation`: result id and the conversations state
afterwards. -/
def get_or_create_conversation (a b : String) (s : ConvState) : Nat × ConvState :=
  match s.convs.find? (participantsMatch a b) with
  | some c => (c.cid, s)
  | none =>
      (s.next_oid,
        { convs := s.convs ++ [{ cid := s.next_oid, participants := [a, b] }],
          next_oid := s.next_oid + 1 })

/-- A sequence of later `get_or_create_conversation` calls (the only operation
of the messaging façade that inserts conversation documents), applied in
order. -/
def run_conversation_calls : List (String × String) → ConvState → ConvState
  | [], s => s
  | op :: rest, s => run_conversation_calls rest (get_or_create_conversation op.1 op.2 s).2

/-! ## Messaging: message history (`mongodb_messaging.py`)

`get_conversation_messages(conversation_id, limit=50, skip=0)` runs
`messages.find({"conversation_id": cid}).sort("timestamp", -1).skip(skip)
.limit(limit)` and returns `list(reversed(messages))`.  Note pymongo/MongoDB
semantics: `.limit(0)` is equivalent to setting no limit. -/

structure MessageDoc where
  mid : Nat
  conversation_id : String
  sender_id : String
  message_text : String
  timestamp : Nat
  is_read : Bool
deriving DecidableEq

/-- Insert into a list kept sorted by `timestamp` descending. -/
def insertTsDesc (m : MessageDoc) : List MessageDoc → List MessageDoc
  | [] => [m]
  | x :: xs => if x.timestamp ≤ m.timestamp then m :: x :: xs else x :: insertTsDesc m xs

/-- The `.sort("timestamp", -1)` step (ties are broken arbitrarily by the
store; this model keeps them in a fixed order). -/
def sortTsDesc : List MessageDoc → List MessageDoc
  | [] => []
  | x :: xs => insertTsDesc x (sortTsDesc xs)

/-- pymongo `.limit(n)`: a limit of 0 is equivalent to no limit. -/
def mongoLimit (n : Nat) (l : List MessageDoc) : List MessageDoc :=
  if n = 0 then l else l.take n

/-- `get_conversation_messages` over the `messages` collection state. -/
def get_conversation_messages (msgs : List MessageDoc) (conversation_id : String)
    (lim skip : Nat) : List MessageDoc :=
  (mongoLimit lim
    ((sortTsDesc (msgs.filter (fun m => m.conversation_id == conversation_id))).drop skip)).reverse

/-! ## File blob storage (`clinic_v2_withoutGUI.py`, MySQL variant)

`store_file(file_path, observation_id, description)` reads the file's bytes,
takes `os.path.basename(file_path)` as filename, guesses the MIME type with
`mimetypes.guess_type` falling back to the lower-cased extension from
`os.path.splitext`, INSERTs a row into `medical_files` and returns the
auto-increment `file_id` (or `None` when reading/inserting fails).
`retrieve_file(file_id)` SELECTs that row back.  The filesystem is an
association list from path to byte list, and `mimetypes.guess_type` is passed
in as an opaque table of the standard library's MIME database. -/

/-- `os.path.basename` for POSIX paths: the part after the last slash. -/
def basename (p : String) : String :=
  String.mk ((p.data.reverse.takeWhile (fun c => !(c == '/'))).reverse)

/-- Scan for the index of the last dot that has some non-dot character before
it (the rule `os.path.splitext` uses on a bare filename). -/
def extIndex : List Char → Bool → Option Nat → Nat → Option Nat
  | [], _, best, _ => best
  | c :: rest, seenNonDot, best, i =>
      if c = '.' then extIndex rest seenNonDot (if seenNonDot then some i else best) (i + 1)
      else extIndex rest true best (i + 1)

/-- Extension component of `os.path.splitext` for a filename with no
directory part (leading dots never start an extension). -/
def splitextExt (s : String) : String :=
  match extIndex s.data false none 0 with
  | none => ""
  | some i => String.mk (s.data.drop i)

/-- One row of the `medical_files` table.  `upload_date` is filled by the
store's column DEFAULT and is irrelevant to the claims, so it is omitted. -/
structure MedicalFileRow where
  file_id : Nat
  filename : String
  file_type : String
  file_size : Nat
  file_data : List Nat
  observation_id : Option Nat
  description : Option String
deriving DecidableEq

/-- The MySQL store as seen by the file-blob methods: the `medical_files`
table plus its AUTO_INCREMENT cursor. -/
structure MySqlFilesDb where
  medical_files : List MedicalFileRow
  auto_inc : Nat
deriving DecidableEq

/-- `store_file`: `none` with an unchanged store when the path is unreadable
(the exception path), otherwise the new `file_id` and the extended store. -/
def store_file (fsys : List (String × List Nat)) (guessType : String → Option String)
    (file_path : String) (observation_id : Option Nat) (description : Option String)
    (db : MySqlFilesDb) : Option Nat × MySqlFilesDb :=
  match alookup fsys file_path with
  | none => (none, db)
  | some file_data =>
      let filename := basename file_path
      let file_size := file_data.length
      let file_type :=
        match guessType file_path with
        | some t => if t = "" then pyLower (splitextExt filename) else t
        | none => pyLower (splitextExt filename)
      let fid := db.auto_inc
      (some fid,
        { medical_files := db.medical_files ++
            [{ file_id := fid, filename := filename, file_type := file_type,
               file_size := file_size, file_data := file_data,
               observation_id := observation_id, description := description }],
          auto_inc := db.auto_inc + 1 })

/-- `retrieve_file`: the dictionary built from the first row whose `file_id`
matches, `none` when there is no such row. -/
def retrieve_file (fid : Nat) (db : MySqlFilesDb) : Option MedicalFileRow :=
  db.medical_files.find? (fun r => r.file_id == fid)

/-! ## Date validation (`clinic_v2_enhanced_v2.py` / `clinic_v2_enhanced.py`)

`validate_date_yyyy_mm_dd` first checks `re.match(r"^\d{4}-\d{2}-\d{2}$", s)`
(which also accepts one trailing newline, because `$` matches before a final
newline) and then `datetime.datetime.strptime(s, "%Y-%m-%d")`, returning
False on either failure. -/

/-- The ten-character core `\d{4}-\d{2}-\d{2}`. -/
def datePatternShape : List Char → Bool
  | [y1, y2, y3, y4, s1, m1, m2, s2, d1, d2] =>
      y1.isDigit && y2.isDigit && y3.isDigit && y4.isDigit && s1 == '-' &&
      m1.isDigit && m2.isDigit && s2 == '-' && d1.isDigit && d2.isDigit
  | _ => false

/-- `re.match(r"^\d{4}-\d{2}-\d{2}$", s)` as a Boolean: the whole string is
the ten-character core, optionally followed by a single newline. -/
def matchesDatePattern (s : String) : Bool :=
  datePatternShape (s.data.take 10) &&
    ((s.data.drop 10).isEmpty || s.data.drop 10 == ['\n'])

/-- Gregorian leap-year rule used by `datetime`. -/
def isLeapYear (y : Nat) : Bool :=
  (y % 4 == 0 && y % 100 != 0) || y % 400 == 0

/-- Days in a month as `datetime` checks them. -/
def daysInMonth (y m : Nat) : Nat :=
  if m = 2 then (if isLeapYear y then 29 else 28)
  else if m = 4 ∨ m = 6 ∨ m = 9 ∨ m = 11 then 30
  else 31

/-- Numeric value of a decimal digit character. -/
def digitVal (c : Char) : Nat := c.toNat - 48

/-- Model of `datetime.datetime.strptime(s, "%Y-%m-%d")` restricted to the
exact ten-character shape (the only inputs the validator can hand it after
its regex check; anything else — including a trailing newline, which strptime
rejects as unconverted data — yields `none`).  strptime itself further
requires a month in 1..12, a day valid for the month, and a year accepted by
`datetime` (MINYEAR = 1). -/
def strptime_ymd (s : String) : Option (Nat × Nat × Nat) :=
  match s.data with
  | [y1, y2, y3, y4, s1, m1, m2, s2, d1, d2] =>
      if y1.isDigit && y2.isDigit && y3.isDigit && y4.isDigit && s1 == '-' &&
         m1.isDigit && m2.isDigit && s2 == '-' && d1.isDigit && d2.isDigit then
        let y := ((digitVal y1 * 10 + digitVal y2) * 10 + digitVal y3) * 10 + digitVal y4
        let m := digitVal m1 * 10 + digitVal m2
        let d := digitVal d1 * 10 + digitVal d2
        if 1 ≤ y ∧ 1 ≤ m ∧ m ≤ 12 ∧ 1 ≤ d ∧ d ≤ daysInMonth y m then some (y, m, d)
        else none
      else none
  | _ => none

/-- `validate_date_yyyy_mm_dd`. -/
def validate_date_yyyy_mm_dd (s : String) : Bool :=
  if !matchesDatePattern s then false
  else (strptime_ymd s).isSome

/-! ## Booking (`clinic_v2_enhanced_v2.py`, MySQL variant)

`PatientWindow.book_appointment` reads the stripped form fields, rejects when
any is empty or the date fails `validate_date_yyyy_mm_dd`, resolves the
doctor id from the combo-box label map (Python's `if not doctor_id` also
rejects an id of 0), looks the patient up by exact first+last name with
`fetchone` (first matching row), INSERTs a new patient only when none was
found, and finally INSERTs the appointment. -/

structure PatientRow where
  patient_id : Nat
  first_name : String
  last_name : String
  doctor_id : Option Nat
deriving DecidableEq

structure AppointmentRow where
  appointment_id : Nat
  doctor_id : Nat
  date : String
  patient_id : Nat
deriving DecidableEq

/-- The MySQL store as seen by the booking flow: `patient` and `appointment`
tables with their AUTO_INCREMENT cursors. -/
structure ClinicSqlDb where
  patients : List PatientRow
  appointments : List AppointmentRow
  patient_auto_inc : Nat
  appointment_auto_inc : Nat
deriving DecidableEq

inductive BookOutcome
  | missing_fields
  | invalid_date
  | invalid_doctor
  | booked (patient_id appointment_id : Nat)
deriving DecidableEq

/-- `SELECT patient_id FROM patient WHERE first_name=%s AND last_name=%s`
followed by `fetchone`. -/
def firstPatientByName (ps : List PatientRow) (fn ln : String) : Option PatientRow :=
  ps.find? (fun p => p.first_name == fn && p.last_name == ln)

/-- `book_appointment` of the MySQL GUI (arguments are the already-stripped
form fields; `doctor_map` is the combo-box label-to-id dictionary). -/
def book_appointment (fname lname doctor_label : String)
    (doctor_map : List (String × Nat)) (date : String) (db : ClinicSqlDb) :
    BookOutcome × ClinicSqlDb :=
  if fname == "" || lname == "" || doctor_label == "" || date == "" then
    (.missing_fields, db)
  else if !validate_date_yyyy_mm_dd date then (.invalid_date, db)
  else
    match alookup doctor_map doctor_label with
    | none => (.invalid_doctor, db)
    | some doctor_id =>
        if doctor_id == 0 then (.invalid_doctor, db)
        else
          let pr : Nat × ClinicSqlDb :=
            match firstPatientByName db.patients fname lname with
            | some p => (p.patient_id, db)
            | none =>
                (db.patient_auto_inc,
                 { db with
                     patients := db.patients ++
                       [{ patient_id := db.patient_auto_inc, first_name := fname,
                          last_name := lname, doctor_id := some doctor_id }],
                     patient_auto_inc := db.patient_auto_inc + 1 })
          let db1 := pr.2
          (.booked pr.1 db1.appointment_auto_inc,
           { db1 with
               appointments := db1.appointments ++
                 [{ appointment_id := db1.appointment_auto_inc, doctor_id := doctor_id,
                    date := date, patient_id := pr.1 }],
               appointment_auto_inc := db1.appointment_auto_inc + 1 })

/-! ## Graph store (`clinic_v2_withoutgui.py` + `clinic_v2_enhanced.py`)

Nodes and relationships the claims touch, as one explicit state.  A doctor's
department is kept on the row (a doctor has one incoming HAS_DOCTOR edge in
this data set). -/

structure GDoctor where
  id : Nat
  first_name : String
  last_name : String
deriving DecidableEq

structure GPatient where
  id : Nat
  first_name : String
  last_name : String
deriving DecidableEq

structure GAppointment where
  id : Nat
  date : String
deriving DecidableEq

structure GMedicalFile where
  id : Nat
  filename : String
  file_type : String
  file_size : Nat
  upload_date : Nat
  description : Option String
deriving DecidableEq

structure GraphState where
  counter : Option CounterFields
  doctors : List GDoctor
  patients : List GPatient
  appointments : List GAppointment
  treats : List (Nat × Nat)
  doctor_has_appointment : List (Nat × Nat)
  patient_has_appointment : List (Nat × Nat)
  medical_files : List GMedicalFile
  has_file : List (Nat × Nat)
deriving DecidableEq

/-- `get_patient_by_name` (the driver's `.single()` on the MATCH result;
the claims below assume the matching patient is unique, where this equals the
first matching node). -/
def g_get_patient_by_name (g : GraphState) (fn ln : String) : Option GPatient :=
  g.patients.find? (fun p => p.first_name == fn && p.last_name == ln)

/-- `create_patient`: allocates an id, CREATEs the Patient node, and MERGEs a
TREATS edge when a doctor id is given and that Doctor node exists (a MATCH
that finds nothing makes the MERGE a no-op). -/
def g_create_patient (g : GraphState) (fn ln : String) (doctor_id : Option Nat) :
    Nat × GraphState :=
  let r := next_id "Patient" g.counter
  let pid := r.1
  let g1 := { g with counter := r.2, patients := g.patients ++ [{ id := pid, first_name := fn, last_name := ln }] }
  match doctor_id with
  | none => (pid, g1)
  | some did =>
      if g1.doctors.any (fun d => d.id == did) then
        let tr := if g1.treats.contains (did, pid) then g1.treats
                  else g1.treats ++ [(did, pid)]
        (pid, { g1 with treats := tr })
      else (pid, g1)

/-- `create_appointment`: the id is allocated first; the CREATE plus the two
HAS_APPOINTMENT MERGEs only run when the MATCH finds both the Doctor and the
Patient node. -/
def g_create_appointment (g : GraphState) (doctor_id : Nat) (date : String)
    (patient_id : Nat) : Nat × GraphState :=
  if g.doctors.any (fun d => d.id == doctor_id) &&
     g.patients.any (fun p => p.id == patient_id) then
    ((next_id "Appointment" g.counter).1,
     { g with
         counter := (next_id "Appointment" g.counter).2,
         appointments := g.appointments ++
           [{ id := (next_id "Appointment" g.counter).1, date := date }],
         doctor_has_appointment := g.doctor_has_appointment ++
           [(doctor_id, (next_id "Appointment" g.counter).1)],
         patient_has_appointment := g.patient_has_appointment ++
           [(patient_id, (next_id "Appointment" g.counter).1)] })
  else ((next_id "Appointment" g.counter).1,
        { g with counter := (next_id "Appointment" g.counter).2 })

/-- `book_appointment` of the Neo4j GUI (`clinic_v2_enhanced.py`): same guard
sequence as the MySQL GUI, then `get_patient_by_name` /
`create_patient` / `create_appointment` against the graph store. -/
def book_appointment_graph (fname lname doctor_label : String)
    (doctor_map : List (String × Nat)) (date : String) (g : GraphState) :
    BookOutcome × GraphState :=
  if fname == "" || lname == "" || doctor_label == "" || date == "" then
    (.missing_fields, g)
  else if !validate_date_yyyy_mm_dd date then (.invalid_date, g)
  else
    match alookup doctor_map doctor_label with
    | none => (.invalid_doctor, g)
    | some did =>
        if did == 0 then (.invalid_doctor, g)
        else
          let pr : Nat × GraphState :=
            match g_get_patient_by_name g fname lname with
            | some p => (p.id, g)
            | none => g_create_patient g fname lname (some did)
          let ar := g_create_appointment pr.2 did date pr.1
          (.booked pr.1 ar.1, ar.2)

/-! ## Research-query guards (`safe_select`, both variants)

MySQL variant: strips the query, raises ValueError unless the stripped query
lower-cased starts with "select", then executes the ORIGINAL query string.
Neo4j variant: same check against "match" or "return", then runs the STRIPPED
query string. -/

inductive QueryOutcome
  | value_error
  | executed (statement : String)
deriving DecidableEq

/-- `safe_select` of the MySQL variant. -/
def safe_select_sql (query : String) : QueryOutcome :=
  let q := pyStrip query
  if pyStartsWith (pyLower q) "select" then .executed query else .value_error

/-- `safe_select` of the Neo4j variant. -/
def safe_select_cypher (query : String) : QueryOutcome :=
  let q := pyStrip query
  if pyStartsWith (pyLower q) "match" || pyStartsWith (pyLower q) "return" then .executed q
  else .value_error

/-! ## Doctors by department (both variants)

Neo4j (`get_doctors_by_department`):
`MATCH (:Department {id:$id})-[:HAS_DOCTOR]->(doc:Doctor) RETURN ...
ORDER BY fn, ln`.
MySQL GUI (`on_dept_selected`):
`SELECT doctor_id, first_name, last_name FROM doctor WHERE department_id=%s`
— note: no ORDER BY, rows come back in whatever order the store yields
(modelled as table order). -/

/-- A row of the MySQL `doctor` table (for the graph variant the
`department_id` field stands for the doctor's HAS_DOCTOR edge). -/
structure DoctorRow where
  doctor_id : Nat
  first_name : String
  last_name : String
  department_id : Nat
deriving DecidableEq

/-- Lexicographic comparison of character lists: the string order the stores
use for ORDER BY. -/
def charListLe : List Char → List Char → Bool
  | [], _ => true
  | _ :: _, [] => false
  | a :: as, b :: bs => if a < b then true else if b < a then false else charListLe as bs

/-- Name order used by `ORDER BY first_name, last_name`. -/
def nameLeb (a b : String × String) : Bool :=
  if a.1 == b.1 then charListLe a.2.data b.2.data else charListLe a.1.data b.1.data

/-- Insert into a list of (id, first, last) tuples kept in name order. -/
def insertByName (d : Nat × String × String) :
    List (Nat × String × String) → List (Nat × String × String)
  | [] => [d]
  | x :: xs => if nameLeb d.2 x.2 then d :: x :: xs else x :: insertByName d xs

/-- Sort by (first_name, last_name), modelling the Cypher ORDER BY. -/
def sortByName : List (Nat × String × String) → List (Nat × String × String)
  | [] => []
  | x :: xs => insertByName x (sortByName xs)

/-- Neo4j `get_doctors_by_department`. -/
def get_doctors_by_department (doctors : List DoctorRow) (department_id : Nat) :
    List (Nat × String × String) :=
  sortByName ((doctors.filter (fun d => d.department_id == department_id)).map
    (fun d => (d.doctor_id, d.first_name, d.last_name)))

/-- The doctor query of the MySQL GUI's `on_dept_selected` (no ORDER BY). -/
def on_dept_selected_doctors (doctors : List DoctorRow) (department_id : Nat) :
    List (Nat × String × String) :=
  (doctors.filter (fun d => d.department_id == department_id)).map
    (fun d => (d.doctor_id, d.first_name, d.last_name))

/-! ## Files by observation (`clinic_v2_withoutgui.py`, Neo4j variant)

`get_files_by_observation` queries
`MATCH (o:Observation {id:$oid})-[:HAS_FILE]->(mf:MedicalFile)
RETURN mf ORDER BY mf.upload_date DESC`, then iterates `for r in res:
mf = r["mf"]` — but the `files.append({...})` call is indented at the level
of the `for`, so it runs ONCE, after the loop, with `mf` bound to the last
row; when there are no rows `mf` is unbound, the NameError is caught by the
`except` clause, and `[]` is returned. -/

/-- Insert into a list of files kept sorted by `upload_date` descending. -/
def insertUploadDesc (f : GMedicalFile) : List GMedicalFile → List GMedicalFile
  | [] => [f]
  | x :: xs => if x.upload_date ≤ f.upload_date then f :: x :: xs else x :: insertUploadDesc f xs

/-- The `ORDER BY mf.upload_date DESC` step. -/
def sortUploadDesc : List GMedicalFile → List GMedicalFile
  | [] => []
  | x :: xs => insertUploadDesc x (sortUploadDesc xs)

/-- The rows of the files-by-observation query, in result order. -/
def linked_files_sorted (g : GraphState) (oid : Nat) : List GMedicalFile :=
  sortUploadDesc (g.medical_files.filter (fun f => g.has_file.contains (oid, f.id)))

/-- `get_files_by_observation` with the mis-indented append: one element (the
last result row) when the query returns anything, else the empty list via the
caught NameError. -/
def get_files_by_observation (g : GraphState) (oid : Nat) : List GMedicalFile :=
  match (linked_files_sorted g oid).getLast? with
  | none => []
  | some mf => [mf]

/-! # Theorems -/

/-! ## Helper lemmas -/

theorem alookup_aset {α : Type} (fs : List (String × α)) (k : String) (v : α) :
    alookup (aset fs k v) k = some v := by
  induction fs with
  | nil => simp [aset, alookup]
  | cons hd tl ih =>
      obtain ⟨k2, w⟩ := hd
      by_cases h : k2 = k
      · simp [aset, alookup, h]
      · simp [aset, alookup, h, ih]

theorem alloc_list_spec (t : String) (n : Nat) :
    ∀ (fs : CounterFields) (v : Nat), alookup fs (pyLower t) = some v →
      (alloc_list t (some fs) n).1 = (List.range n).map (fun i => v + i) ∧
      ∃ fs2, (alloc_list t (some fs) n).2 = some fs2 ∧
        alookup fs2 (pyLower t) = some (v + n) := by
  induction n with
  | zero =>
      intro fs v h
      exact ⟨rfl, fs, rfl, by simpa using h⟩
  | succ n ih =>
      intro fs v h
      have hstep : next_id t (some fs) = (v, some (aset fs (pyLower t) (v + 1))) := by
        simp [next_id, h]
      have ihv := ih (aset fs (pyLower t) (v + 1)) (v + 1) (alookup_aset fs (pyLower t) (v + 1))
      constructor
      · show (alloc_list t (some fs) (n + 1)).1 = _
        have : (alloc_list t (some fs) (n + 1)).1 =
            v :: (alloc_list t (some (aset fs (pyLower t) (v + 1))) n).1 := by
          simp [alloc_list, hstep]
        rw [this, ihv.1, List.range_succ_eq_map, List.map_cons, List.map_map]
        congr 1
        apply List.map_congr_left
        intro i _
        simp [Function.comp, Nat.succ_eq_add_one]
        omega
      · obtain ⟨fs2, h2, h3⟩ := ihv.2
        refine ⟨fs2, ?_, ?_⟩
        · show (alloc_list t (some fs) (n + 1)).2 = some fs2
          simp [alloc_list, hstep, h2]
        · rw [h3]; congr 1; omega

/-! ## C1 / C10: the sequence allocator -/

/-- C1: if the shared Counter record exists and stores value v for the
entity-type label t, then N successive `_next_id(t)` calls return exactly
v, v+1, ..., v+N-1 — strictly increasing, hence distinct — and leave the
stored value at v+N (each call returned the current stored value and
incremented it by exactly 1). -/
theorem c1_next_id_sequence (t : String) (fs : CounterFields) (v n : Nat)
    (h : alookup fs (pyLower t) = some v) :
    (alloc_list t (some fs) n).1 = (List.range n).map (fun i => v + i) ∧
    List.Pairwise (fun a b : Nat => a < b) (alloc_list t (some fs) n).1 ∧
    ∃ fs2, (alloc_list t (some fs) n).2 = some fs2 ∧
      alookup fs2 (pyLower t) = some (v + n) := by
  obtain ⟨h1, h2⟩ := alloc_list_spec t n fs v h
  refine ⟨h1, ?_, h2⟩
  rw [h1]
  exact (List.pairwise_lt_range n).map _ (fun a b hab => by omega)

/-- Witness for C1: label "patient", stored value 5, three calls. -/
theorem c1_next_id_sequence_witness :
    alookup [("patient", 5)] (pyLower "patient") = some 5 ∧
    ((alloc_list "patient" (some [("patient", 5)]) 3).1 =
        (List.range 3).map (fun i => 5 + i) ∧
      List.Pairwise (fun a b : Nat => a < b)
        (alloc_list "patient" (some [("patient", 5)]) 3).1 ∧
      ∃ fs2, (alloc_list "patient" (some [("patient", 5)]) 3).2 = some fs2 ∧
        alookup fs2 (pyLower "patient") = some (5 + 3)) :=
  ⟨by decide, c1_next_id_sequence "patient" [("patient", 5)] 5 3 (by decide)⟩

/-- C10: with no `Counter {name:'global_ids'}` record in the store,
`_next_id(t)` returns 1 and performs no write (the record is neither created
nor incremented), so N repeated calls all return 1 — the ids are not
distinct — and the record still does not exist afterwards. -/
theorem c10_next_id_without_counter (t : String) (n : Nat) :
    next_id t none = (1, none) ∧
    (alloc_list t none n).1 = List.replicate n 1 ∧
    (alloc_list t none n).2 = none := by
  have h : ∀ m, (alloc_list t none m).1 = List.replicate m 1 ∧
      (alloc_list t none m).2 = none := by
    intro m
    induction m with
    | zero => exact ⟨rfl, rfl⟩
    | succ m ih =>
        refine ⟨?_, ?_⟩
        · show (next_id t none).1 :: (alloc_list t (next_id t none).2 m).1 = _
          simp [next_id, List.replicate_succ, ih.1]
        · show (alloc_list t (next_id t none).2 m).2 = none
          simp [next_id, ih.2]
  exact ⟨rfl, (h n).1, (h n).2⟩

/-! ## C2: conversation lookup-or-create per unordered pair -/

theorem participantsMatch_comm (a b : String) :
    participantsMatch a b = participantsMatch b a := by
  funext c
  simp [participantsMatch, Bool.and_comm]

theorem get_or_create_found (a b : String) (s : ConvState) :
    ∃ c, (get_or_create_conversation a b s).2.convs.find? (participantsMatch a b) = some c ∧
      c.cid = (get_or_create_conversation a b s).1 := by
  unfold get_or_create_conversation
  cases hf : s.convs.find? (participantsMatch a b) with
  | some c => exact ⟨c, by simp [hf], rfl⟩
  | none =>
      refine ⟨{ cid := s.next_oid, participants := [a, b] }, ?_, rfl⟩
      simp [List.find?_append, hf, participantsMatch]

theorem find?_preserved_by_call (a b : String) (c : Conversation) (st : ConvState)
    (op : String × String)
    (h : st.convs.find? (participantsMatch a b) = some c) :
    (get_or_create_conversation op.1 op.2 st).2.convs.find? (participantsMatch a b) = some c := by
  unfold get_or_create_conversation
  cases hf : st.convs.find? (participantsMatch op.1 op.2) with
  | some d => simpa using h
  | none => simp [List.find?_append, h]

theorem find?_preserved_by_run (a b : String) (c : Conversation)
    (ops : List (String × String)) :
    ∀ st : ConvState, st.convs.find? (participantsMatch a b) = some c →
      (run_conversation_calls ops st).convs.find? (participantsMatch a b) = some c := by
  induction ops with
  | nil => intro st h; exact h
  | cons op rest ih =>
      intro st h
      exact ih _ (find?_preserved_by_call a b c st op h)

/-- C2: once `get_or_create_conversation(A, B)` has returned an identifier,
every later call with the same unordered pair — after any further sequence of
`get_or_create_conversation` calls — returns that same identifier and leaves
the conversations collection unchanged (creates no new document), whether
called as (A, B) or as (B, A). -/
theorem c2_conversation_pair_unique (A B : String) (s : ConvState) (cid : Nat)
    (s1 : ConvState) (h : get_or_create_conversation A B s = (cid, s1))
    (ops : List (String × String)) :
    get_or_create_conversation A B (run_conversation_calls ops s1) =
      (cid, run_conversation_calls ops s1) ∧
    get_or_create_conversation B A (run_conversation_calls ops s1) =
      (cid, run_conversation_calls ops s1) := by
  obtain ⟨c, hc, hcid⟩ := get_or_create_found A B s
  rw [h] at hc hcid
  have h2 := find?_preserved_by_run A B c ops s1 hc
  constructor
  · unfold get_or_create_conversation
    simp [h2, hcid]
  · unfold get_or_create_conversation
    rw [← participantsMatch_comm, h2]
    simp [hcid]

/-- Witness for C2: pair ("u1", "u2") on the empty store, with one unrelated
later call for the pair ("u3", "u4"). -/
theorem c2_conversation_pair_unique_witness :
    get_or_create_conversation "u1" "u2" { convs := [], next_oid := 0 } =
      (0, { convs := [{ cid := 0, participants := ["u1", "u2"] }], next_oid := 1 }) ∧
    (get_or_create_conversation "u1" "u2"
        (run_conversation_calls [("u3", "u4")]
          { convs := [{ cid := 0, participants := ["u1", "u2"] }], next_oid := 1 }) =
      (0, run_conversation_calls [("u3", "u4")]
          { convs := [{ cid := 0, participants := ["u1", "u2"] }], next_oid := 1 }) ∧
     get_or_create_conversation "u2" "u1"
        (run_conversation_calls [("u3", "u4")]
          { convs := [{ cid := 0, participants := ["u1", "u2"] }], next_oid := 1 }) =
      (0, run_conversation_calls [("u3", "u4")]
          { convs := [{ cid := 0, participants := ["u1", "u2"] }], next_oid := 1 })) :=
  ⟨by decide,
   c2_conversation_pair_unique "u1" "u2" { convs := [], next_oid := 0 } 0
     { convs := [{ cid := 0, participants := ["u1", "u2"] }], next_oid := 1 }
     (by decide) [("u3", "u4")]⟩

/-! ## C3: file-blob round trip -/

/-- C3: for a readable path, `store_file` followed immediately by
`retrieve_file` on the id it returned yields a record whose `file_data`
equals the file's bytes and whose `filename` equals the basename of the
stored path.  The freshness hypothesis is the AUTO_INCREMENT invariant:
every existing row's id is below the cursor. -/
theorem c3_store_retrieve_roundtrip (fsys : List (String × List Nat))
    (guessType : String → Option String) (path : String) (obsId : Option Nat)
    (desc : Option String) (db : MySqlFilesDb) (data : List Nat)
    (hread : alookup fsys path = some data)
    (hfresh : ∀ r ∈ db.medical_files, r.file_id < db.auto_inc) :
    ∃ db2, store_file fsys guessType path obsId desc db = (some db.auto_inc, db2) ∧
      ∃ rf, retrieve_file db.auto_inc db2 = some rf ∧
        rf.file_data = data ∧ rf.filename = basename path := by
  have hnone : db.medical_files.find? (fun r => r.file_id == db.auto_inc) = none := by
    apply List.find?_eq_none.mpr
    intro x hx
    have hlt := hfresh x hx
    simp only [beq_iff_eq]
    omega
  unfold store_file
  rw [hread]
  refine ⟨_, rfl, ?_⟩
  unfold retrieve_file
  rw [List.find?_append, hnone]
  refine ⟨{ file_id := db.auto_inc, filename := basename path,
            file_type := match guessType path with
              | some t => if t = "" then pyLower (splitextExt (basename path)) else t
              | none => pyLower (splitextExt (basename path)),
            file_size := data.length, file_data := data,
            observation_id := obsId, description := desc }, ?_, rfl, rfl⟩
  rw [List.find?_cons_of_pos _ (by simp)]
  rfl

/-- Witness for C3: a one-file filesystem and an empty table. -/
theorem c3_store_retrieve_roundtrip_witness :
    alookup [("dir/x.txt", [1, 2, 3])] "dir/x.txt" = some [1, 2, 3] ∧
    (∀ r ∈ ([] : List MedicalFileRow), r.file_id < 1) ∧
    ∃ db2, store_file [("dir/x.txt", [1, 2, 3])] (fun _ => none) "dir/x.txt"
        none none { medical_files := [], auto_inc := 1 } = (some 1, db2) ∧
      ∃ rf, retrieve_file 1 db2 = some rf ∧
        rf.file_data = [1, 2, 3] ∧ rf.filename = basename "dir/x.txt" :=
  ⟨by decide, by simp,
   c3_store_retrieve_roundtrip [("dir/x.txt", [1, 2, 3])] (fun _ => none)
     "dir/x.txt" none none { medical_files := [], auto_inc := 1 } [1, 2, 3]
     (by decide) (by simp)⟩

/-! ## C4: malformed dates are rejected before any store call -/

theorem book_sql_rejects_invalid_date (fname lname dlabel : String)
    (dmap : List (String × Nat)) (date : String) (db : ClinicSqlDb)
    (hv : validate_date_yyyy_mm_dd date = false) :
    book_appointment fname lname dlabel dmap date db = (.missing_fields, db) ∨
    book_appointment fname lname dlabel dmap date db = (.invalid_date, db) := by
  unfold book_appointment
  by_cases hempty : (fname == "" || lname == "" || dlabel == "" || date == "") = true
  · left; rw [if_pos hempty]
  · right
    rw [if_neg hempty, hv]
    simp

/-- C4: a date string failing the pattern makes `validate_date_yyyy_mm_dd`
return False and makes `book_appointment` reject the booking with the store
untouched; the spec's example "2024-13-40" (which passes the regex but fails
the strptime parse) is likewise rejected with the store untouched. -/
theorem c4_malformed_date_rejected (fname lname dlabel : String)
    (dmap : List (String × Nat)) (date : String) (db : ClinicSqlDb)
    (h : matchesDatePattern date = false) :
    (validate_date_yyyy_mm_dd date = false ∧
      (book_appointment fname lname dlabel dmap date db = (.missing_fields, db) ∨
       book_appointment fname lname dlabel dmap date db = (.invalid_date, db))) ∧
    (validate_date_yyyy_mm_dd "2024-13-40" = false ∧
      (book_appointment fname lname dlabel dmap "2024-13-40" db = (.missing_fields, db) ∨
       book_appointment fname lname dlabel dmap "2024-13-40" db = (.invalid_date, db))) := by
  have hv : validate_date_yyyy_mm_dd date = false := by
    simp [validate_date_yyyy_mm_dd, h]
  have hv2 : validate_date_yyyy_mm_dd "2024-13-40" = false := by decide
  exact ⟨⟨hv, book_sql_rejects_invalid_date fname lname dlabel dmap date db hv⟩,
         ⟨hv2, book_sql_rejects_invalid_date fname lname dlabel dmap "2024-13-40" db hv2⟩⟩

/-- Witness for C4: the malformed date "2024-1-1" (single-digit fields fail
the regex) on a concrete store. -/
theorem c4_malformed_date_rejected_witness :
    matchesDatePattern "2024-1-1" = false ∧
    ((validate_date_yyyy_mm_dd "2024-1-1" = false ∧
      (book_appointment "Lars" "Nilsson" "Dr. Anna Johnson" [("Dr. Anna Johnson", 1)]
          "2024-1-1" { patients := [], appointments := [],
                       patient_auto_inc := 1, appointment_auto_inc := 1 } =
        (.missing_fields, { patients := [], appointments := [],
                            patient_auto_inc := 1, appointment_auto_inc := 1 }) ∨
       book_appointment "Lars" "Nilsson" "Dr. Anna Johnson" [("Dr. Anna Johnson", 1)]
          "2024-1-1" { patients := [], appointments := [],
                       patient_auto_inc := 1, appointment_auto_inc := 1 } =
        (.invalid_date, { patients := [], appointments := [],
                          patient_auto_inc := 1, appointment_auto_inc := 1 }))) ∧
     (validate_date_yyyy_mm_dd "2024-13-40" = false ∧
      (book_appointment "Lars" "Nilsson" "Dr. Anna Johnson" [("Dr. Anna Johnson", 1)]
          "2024-13-40" { patients := [], appointments := [],
                         patient_auto_inc := 1, appointment_auto_inc := 1 } =
        (.missing_fields, { patients := [], appointments := [],
                            patient_auto_inc := 1, appointment_auto_inc := 1 }) ∨
       book_appointment "Lars" "Nilsson" "Dr. Anna Johnson" [("Dr. Anna Johnson", 1)]
          "2024-13-40" { patients := [], appointments := [],
                         patient_auto_inc := 1, appointment_auto_inc := 1 } =
        (.invalid_date, { patients := [], appointments := [],
                          patient_auto_inc := 1, appointment_auto_inc := 1 })))) :=
  ⟨by decide,
   c4_malformed_date_rejected "Lars" "Nilsson" "Dr. Anna Johnson"
     [("Dr. Anna Johnson", 1)] "2024-1-1"
     { patients := [], appointments := [],
       patient_auto_inc := 1, appointment_auto_inc := 1 } (by decide)⟩

/-! ## C5: booking for an existing patient creates no duplicate patient -/

theorem find?_of_filter_singleton {α : Type} (p : α → Bool) (l : List α) (x : α)
    (h : l.filter p = [x]) : l.find? p = some x := by
  induction l with
  | nil => simp at h
  | cons hd tl ih =>
      by_cases hp : p hd = true
      · rw [List.filter_cons_of_pos hp] at h
        injection h with h1 h2
        rw [List.find?_cons_of_pos _ hp, h1]
      · rw [List.filter_cons_of_neg hp] at h
        rw [List.find?_cons_of_neg _ hp]
        exact ih h

theorem mem_of_filter_singleton {α : Type} (p : α → Bool) (l : List α) (x : α)
    (h : l.filter p = [x]) : x ∈ l := by
  have hx : x ∈ l.filter p := by rw [h]; exact List.mem_singleton_self x
  exact (List.mem_filter.mp hx).1

/-- Validity of the date string forces it to be non-empty. -/
theorem date_nonempty_of_valid (date : String)
    (hv : validate_date_yyyy_mm_dd date = true) : date ≠ "" := by
  intro h
  subst h
  simp [validate_date_yyyy_mm_dd, matchesDatePattern, datePatternShape] at hv

/-- C5: when the (first_name, last_name) pair matches an existing Patient,
`book_appointment` creates no new Patient record in either variant: the
patient table / node set is unchanged and the newly created Appointment
references the existing patient's id.  (For the MySQL variant the matched
patient is the first row `fetchone` returns; for the graph variant the match
is assumed unique, which is what the driver's `.single()` call expects.) -/
theorem c5_existing_patient_not_duplicated
    (fname lname dlabel date : String) (dmap : List (String × Nat)) (did : Nat)
    (hf : fname ≠ "") (hl : lname ≠ "") (hdl : dlabel ≠ "")
    (hv : validate_date_yyyy_mm_dd date = true)
    (hdid : alookup dmap dlabel = some did) (hd0 : did ≠ 0)
    (db : ClinicSqlDb) (p : PatientRow)
    (hp : firstPatientByName db.patients fname lname = some p)
    (g : GraphState) (q : GPatient)
    (hq : g.patients.filter (fun r => r.first_name == fname && r.last_name == lname) = [q])
    (hdoc : g.doctors.any (fun d => d.id == did) = true) :
    (book_appointment fname lname dlabel dmap date db =
      (.booked p.patient_id db.appointment_auto_inc,
       { db with
           appointments := db.appointments ++
             [{ appointment_id := db.appointment_auto_inc, doctor_id := did,
                date := date, patient_id := p.patient_id }],
           appointment_auto_inc := db.appointment_auto_inc + 1 }) ∧
     (book_appointment fname lname dlabel dmap date db).2.patients = db.patients) ∧
    (∃ aid g2, book_appointment_graph fname lname dlabel dmap date g =
        (.booked q.id aid, g2) ∧
      g2.patients = g.patients ∧
      g2.appointments = g.appointments ++ [{ id := aid, date := date }] ∧
      g2.patient_has_appointment = g.patient_has_appointment ++ [(q.id, aid)] ∧
      g2.doctor_has_appointment = g.doctor_has_appointment ++ [(did, aid)]) := by
  have hdate : date ≠ "" := date_nonempty_of_valid date hv
  have hguard : (fname == "" || lname == "" || dlabel == "" || date == "") = false := by
    simp [hf, hl, hdl, hdate]
  have hsql : book_appointment fname lname dlabel dmap date db =
      (.booked p.patient_id db.appointment_auto_inc,
       { db with
           appointments := db.appointments ++
             [{ appointment_id := db.appointment_auto_inc, doctor_id := did,
                date := date, patient_id := p.patient_id }],
           appointment_auto_inc := db.appointment_auto_inc + 1 }) := by
    unfold book_appointment
    rw [if_neg (by simp [hguard]), hv]
    simp only [Bool.not_true, Bool.false_eq_true, if_false, hdid]
    rw [if_neg (by simp [hd0]), hp]
  have hfind : g_get_patient_by_name g fname lname = some q :=
    find?_of_filter_singleton _ g.patients q hq
  have hqmem : q ∈ g.patients :=
    mem_of_filter_singleton _ g.patients q hq
  have hpat : g.patients.any (fun r => r.id == q.id) = true :=
    List.any_eq_true.mpr ⟨q, hqmem, by simp⟩
  have hcreate : g_create_appointment g did date q.id =
      ((next_id "Appointment" g.counter).1,
       { g with
           counter := (next_id "Appointment" g.counter).2,
           appointments := g.appointments ++
             [{ id := (next_id "Appointment" g.counter).1, date := date }],
           doctor_has_appointment := g.doctor_has_appointment ++
             [(did, (next_id "Appointment" g.counter).1)],
           patient_has_appointment := g.patient_has_appointment ++
             [(q.id, (next_id "Appointment" g.counter).1)] }) := by
    unfold g_create_appointment
    rw [if_pos (by simp [hdoc, hpat])]
  have hgraph : book_appointment_graph fname lname dlabel dmap date g =
      (.booked q.id (next_id "Appointment" g.counter).1,
       { g with
           counter := (next_id "Appointment" g.counter).2,
           appointments := g.appointments ++
             [{ id := (next_id "Appointment" g.counter).1, date := date }],
           doctor_has_appointment := g.doctor_has_appointment ++
             [(did, (next_id "Appointment" g.counter).1)],
           patient_has_appointment := g.patient_has_appointment ++
             [(q.id, (next_id "Appointment" g.counter).1)] }) := by
    unfold book_appointment_graph
    rw [if_neg (by simp [hguard]), hv]
    simp only [Bool.not_true, Bool.false_eq_true, if_false, hdid]
    rw [if_neg (by simp [hd0]), hfind]
    show (BookOutcome.booked q.id (g_create_appointment g did date q.id).1,
          (g_create_appointment g did date q.id).2) = _
    rw [hcreate]
  exact ⟨⟨hsql, by rw [hsql]⟩,
         (next_id "Appointment" g.counter).1, _, hgraph, rfl, rfl, rfl, rfl⟩

/-- Witness for C5: one existing patient, one doctor, valid date, in both
stores. -/
theorem c5_existing_patient_not_duplicated_witness :
    ("Lars" : String) ≠ "" ∧ ("Nilsson" : String) ≠ "" ∧
    ("Dr. Anna Johnson" : String) ≠ "" ∧
    validate_date_yyyy_mm_dd "2024-01-15" = true ∧
    alookup [("Dr. Anna Johnson", 1)] "Dr. Anna Johnson" = some 1 ∧ (1 : Nat) ≠ 0 ∧
    firstPatientByName [{ patient_id := 7, first_name := "Lars", last_name := "Nilsson",
                          doctor_id := none }] "Lars" "Nilsson" =
      some { patient_id := 7, first_name := "Lars", last_name := "Nilsson",
             doctor_id := none } ∧
    ([{ id := 7, first_name := "Lars", last_name := "Nilsson" }] : List GPatient).filter
        (fun r => r.first_name == "Lars" && r.last_name == "Nilsson") =
      [{ id := 7, first_name := "Lars", last_name := "Nilsson" }] ∧
    ([{ id := 1, first_name := "Anna", last_name := "Johnson" }] : List GDoctor).any
        (fun d => d.id == 1) = true ∧
    (book_appointment "Lars" "Nilsson" "Dr. Anna Johnson" [("Dr. Anna Johnson", 1)]
        "2024-01-15"
        { patients := [{ patient_id := 7, first_name := "Lars", last_name := "Nilsson",
                         doctor_id := none }],
          appointments := [], patient_auto_inc := 8, appointment_auto_inc := 1 } =
      (.booked 7 1,
       { patients := [{ patient_id := 7, first_name := "Lars", last_name := "Nilsson",
                        doctor_id := none }],
         appointments := [{ appointment_id := 1, doctor_id := 1, date := "2024-01-15",
                            patient_id := 7 }],
         patient_auto_inc := 8, appointment_auto_inc := 2 }) ∧
      (book_appointment "Lars" "Nilsson" "Dr. Anna Johnson" [("Dr. Anna Johnson", 1)]
        "2024-01-15"
        { patients := [{ patient_id := 7, first_name := "Lars", last_name := "Nilsson",
                         doctor_id := none }],
          appointments := [], patient_auto_inc := 8,
          appointment_auto_inc := 1 }).2.patients =
        [{ patient_id := 7, first_name := "Lars", last_name := "Nilsson",
           doctor_id := none }]) ∧
    ∃ aid g2, book_appointment_graph "Lars" "Nilsson" "Dr. Anna Johnson"
        [("Dr. Anna Johnson", 1)] "2024-01-15"
        { counter := some [("appointment", 5)],
          doctors := [{ id := 1, first_name := "Anna", last_name := "Johnson" }],
          patients := [{ id := 7, first_name := "Lars", last_name := "Nilsson" }],
          appointments := [], treats := [], doctor_has_appointment := [],
          patient_has_appointment := [], medical_files := [], has_file := [] } =
        (.booked 7 aid, g2) ∧
      g2.patients = [{ id := 7, first_name := "Lars", last_name := "Nilsson" }] ∧
      g2.appointments = [] ++ [{ id := aid, date := "2024-01-15" }] ∧
      g2.patient_has_appointment = [] ++ [(7, aid)] ∧
      g2.doctor_has_appointment = [] ++ [(1, aid)] :=
  ⟨by decide, by decide, by decide, by decide, by decide, by decide, by decide,
   by decide, by decide,
   c5_existing_patient_not_duplicated "Lars" "Nilsson" "Dr. Anna Johnson" "2024-01-15"
     [("Dr. Anna Johnson", 1)] 1 (by decide) (by decide) (by decide) (by decide)
     (by decide) (by decide)
     { patients := [{ patient_id := 7, first_name := "Lars", last_name := "Nilsson",
                      doctor_id := none }],
       appointments := [], patient_auto_inc := 8, appointment_auto_inc := 1 }
     { patient_id := 7, first_name := "Lars", last_name := "Nilsson", doctor_id := none }
     (by decide)
     { counter := some [("appointment", 5)],
       doctors := [{ id := 1, first_name := "Anna", last_name := "Johnson" }],
       patients := [{ id := 7, first_name := "Lars", last_name := "Nilsson" }],
       appointments := [], treats := [], doctor_has_appointment := [],
       patient_has_appointment := [], medical_files := [], has_file := [] }
     { id := 7, first_name := "Lars", last_name := "Nilsson" }
     (by decide) (by decide)⟩

/-! ## C6: research-query prefix guards -/

/-- C6: in both variants `safe_select` raises ValueError exactly when the
stripped query does not begin, case-insensitively, with an allowed read
keyword (SELECT in the MySQL variant; MATCH or RETURN in the Neo4j variant);
a statement passing the prefix check is executed with no further inspection
or rewriting — the MySQL variant runs the original string, the Neo4j variant
the stripped string. -/
theorem c6_safe_select_prefix_guard (query : String) :
    (safe_select_sql query = .value_error ↔
      pyStartsWith (pyLower (pyStrip query)) "select" = false) ∧
    (pyStartsWith (pyLower (pyStrip query)) "select" = true →
      safe_select_sql query = .executed query) ∧
    (safe_select_cypher query = .value_error ↔
      (pyStartsWith (pyLower (pyStrip query)) "match" = false ∧
       pyStartsWith (pyLower (pyStrip query)) "return" = false)) ∧
    ((pyStartsWith (pyLower (pyStrip query)) "match" = true ∨
      pyStartsWith (pyLower (pyStrip query)) "return" = true) →
      safe_select_cypher query = .executed (pyStrip query)) := by
  refine ⟨?_, ?_, ?_, ?_⟩
  · by_cases h : pyStartsWith (pyLower (pyStrip query)) "select" = true
    · simp [safe_select_sql, h]
    · simp only [Bool.not_eq_true] at h
      simp [safe_select_sql, h]
  · intro h
    simp [safe_select_sql, h]
  · by_cases h1 : pyStartsWith (pyLower (pyStrip query)) "match" = true
    · simp [safe_select_cypher, h1]
    · by_cases h2 : pyStartsWith (pyLower (pyStrip query)) "return" = true
      · simp [safe_select_cypher, h2]
      · simp only [Bool.not_eq_true] at h1 h2
        simp [safe_select_cypher, h1, h2]
  · intro h
    rcases h with h | h
    · simp [safe_select_cypher, h]
    · simp [safe_select_cypher, h]

/-- Witness for C6: an accepted SELECT with leading whitespace and an
accepted Cypher MATCH statement. -/
theorem c6_safe_select_prefix_guard_witness :
    pyStartsWith (pyLower (pyStrip " SELECT 1")) "select" = true ∧
    safe_select_sql " SELECT 1" = .executed " SELECT 1" ∧
    (pyStartsWith (pyLower (pyStrip "MATCH (n) RETURN n")) "match" = true ∨
     pyStartsWith (pyLower (pyStrip "MATCH (n) RETURN n")) "return" = true) ∧
    safe_select_cypher "MATCH (n) RETURN n" = .executed (pyStrip "MATCH (n) RETURN n") :=
  ⟨by decide, (c6_safe_select_prefix_guard " SELECT 1").2.1 (by decide),
   Or.inl (by decide),
   (c6_safe_select_prefix_guard "MATCH (n) RETURN n").2.2.2 (Or.inl (by decide))⟩

/-! ## C7: message-history window -/

theorem mem_insertTsDesc (m b : MessageDoc) (l : List MessageDoc) :
    b ∈ insertTsDesc m l ↔ b = m ∨ b ∈ l := by
  induction l with
  | nil => simp [insertTsDesc]
  | cons x xs ih =>
      simp only [insertTsDesc]
      by_cases hc : x.timestamp ≤ m.timestamp
      · rw [if_pos hc]; simp
      · rw [if_neg hc]
        simp only [List.mem_cons, ih]
        tauto

theorem pairwise_insertTsDesc (m : MessageDoc) (l : List MessageDoc)
    (h : List.Pairwise (fun a b => b.timestamp ≤ a.timestamp) l) :
    List.Pairwise (fun a b => b.timestamp ≤ a.timestamp) (insertTsDesc m l) := by
  induction l with
  | nil => simp [insertTsDesc]
  | cons x xs ih =>
      rcases List.pairwise_cons.mp h with ⟨hx, hxs⟩
      simp only [insertTsDesc]
      by_cases hc : x.timestamp ≤ m.timestamp
      · rw [if_pos hc]
        refine List.pairwise_cons.mpr ⟨?_, h⟩
        intro b hb
        rcases List.mem_cons.mp hb with rfl | hb
        · exact hc
        · exact le_trans (hx b hb) hc
      · rw [if_neg hc]
        refine List.pairwise_cons.mpr ⟨?_, ih hxs⟩
        intro b hb
        rcases (mem_insertTsDesc m b xs).mp hb with rfl | hb
        · omega
        · exact hx b hb

theorem pairwise_sortTsDesc (l : List MessageDoc) :
    List.Pairwise (fun a b => b.timestamp ≤ a.timestamp) (sortTsDesc l) := by
  induction l with
  | nil => simp [sortTsDesc]
  | cons x xs ih => exact pairwise_insertTsDesc x (sortTsDesc xs) ih

/-- C7 counterexample: pymongo's `.limit(0)` applies no limit, so with
limit N = 0 the call returns more than N messages — the claim's "at most N"
fails at N = 0. -/
theorem c7_counterexample_limit_zero :
    ¬ ((get_conversation_messages
          [{ mid := 1, conversation_id := "c", sender_id := "u",
             message_text := "hi", timestamp := 5, is_read := false }]
          "c" 0 0).length ≤ 0) := by
  decide

/-- C7 (amended): for every positive limit N and every skip K, the call
returns at most N messages — exactly the window of the conversation's
messages obtained by sorting newest-first, skipping the K newest and taking
the next N — and returns them in chronological (oldest-first) timestamp
order.  (With limit 0, pymongo applies no limit and all messages after the
skip are returned.) -/
theorem c7_amended_message_window (msgs : List MessageDoc) (cid : String)
    (N K : Nat) (h : 1 ≤ N) :
    (get_conversation_messages msgs cid N K).length ≤ N ∧
    get_conversation_messages msgs cid N K =
      (((sortTsDesc (msgs.filter (fun m => m.conversation_id == cid))).drop K).take N).reverse ∧
    List.Pairwise (fun a b => a.timestamp ≤ b.timestamp)
      (get_conversation_messages msgs cid N K) := by
  have hN : N ≠ 0 := by omega
  have heq : get_conversation_messages msgs cid N K =
      (((sortTsDesc (msgs.filter (fun m => m.conversation_id == cid))).drop K).take N).reverse := by
    unfold get_conversation_messages mongoLimit
    rw [if_neg hN]
  refine ⟨?_, heq, ?_⟩
  · rw [heq, List.length_reverse, List.length_take]
    exact min_le_left _ _
  · have hs := pairwise_sortTsDesc (msgs.filter (fun m => m.conversation_id == cid))
    have hsub : (((sortTsDesc (msgs.filter (fun m => m.conversation_id == cid))).drop K).take N).Sublist
        (sortTsDesc (msgs.filter (fun m => m.conversation_id == cid))) :=
      (List.take_sublist _ _).trans (List.drop_sublist _ _)
    rw [heq, List.pairwise_reverse]
    exact hs.sublist hsub

/-- Witness for C7 (amended): three messages, limit 2, skip 1. -/
theorem c7_amended_message_window_witness :
    1 ≤ 2 ∧
    ((get_conversation_messages
        [{ mid := 1, conversation_id := "c", sender_id := "u",
           message_text := "a", timestamp := 1, is_read := false },
         { mid := 2, conversation_id := "c", sender_id := "u",
           message_text := "b", timestamp := 3, is_read := false },
         { mid := 3, conversation_id := "c", sender_id := "u",
           message_text := "d", timestamp := 2, is_read := false }] "c" 2 1).length ≤ 2 ∧
     get_conversation_messages
        [{ mid := 1, conversation_id := "c", sender_id := "u",
           message_text := "a", timestamp := 1, is_read := false },
         { mid := 2, conversation_id := "c", sender_id := "u",
           message_text := "b", timestamp := 3, is_read := false },
         { mid := 3, conversation_id := "c", sender_id := "u",
           message_text := "d", timestamp := 2, is_read := false }] "c" 2 1 =
      (((sortTsDesc
          ([{ mid := 1, conversation_id := "c", sender_id := "u",
              message_text := "a", timestamp := 1, is_read := false },
            { mid := 2, conversation_id := "c", sender_id := "u",
              message_text := "b", timestamp := 3, is_read := false },
            { mid := 3, conversation_id := "c", sender_id := "u",
              message_text := "d", timestamp := 2, is_read := false }].filter
            (fun m => m.conversation_id == "c"))).drop 1).take 2).reverse ∧
     List.Pairwise (fun a b => a.timestamp ≤ b.timestamp)
       (get_conversation_messages
          [{ mid := 1, conversation_id := "c", sender_id := "u",
             message_text := "a", timestamp := 1, is_read := false },
           { mid := 2, conversation_id := "c", sender_id := "u",
             message_text := "b", timestamp := 3, is_read := false },
           { mid := 3, conversation_id := "c", sender_id := "u",
             message_text := "d", timestamp := 2, is_read := false }] "c" 2 1)) :=
  ⟨by decide,
   c7_amended_message_window
     [{ mid := 1, conversation_id := "c", sender_id := "u",
        message_text := "a", timestamp := 1, is_read := false },
      { mid := 2, conversation_id := "c", sender_id := "u",
        message_text := "b", timestamp := 3, is_read := false },
      { mid := 3, conversation_id := "c", sender_id := "u",
        message_text := "d", timestamp := 2, is_read := false }] "c" 2 1 (by decide)⟩

/-! ## C8: doctors of a department, ordering -/

theorem charListLe_total (x : List Char) : ∀ y, charListLe x y = false →
    charListLe y x = true := by
  induction x with
  | nil => intro y h; simp [charListLe] at h
  | cons a as ih =>
      intro y h
      cases y with
      | nil => rfl
      | cons b bs =>
          simp only [charListLe] at h ⊢
          by_cases hab : a < b
          · rw [if_pos hab] at h; simp at h
          · rw [if_neg hab] at h
            by_cases hba : b < a
            · rw [if_pos hba]
            · rw [if_neg hba] at h
              rw [if_neg hba, if_neg hab]
              exact ih bs h

theorem charListLe_antisymm (x : List Char) : ∀ y, charListLe x y = true →
    charListLe y x = true → x = y := by
  induction x with
  | nil =>
      intro y h1 h2
      cases y with
      | nil => rfl
      | cons b bs => simp [charListLe] at h2
  | cons a as ih =>
      intro y h1 h2
      cases y with
      | nil => simp [charListLe] at h1
      | cons b bs =>
          simp only [charListLe] at h1 h2
          by_cases hab : a < b
          · have hba : ¬ b < a := lt_asymm hab
            rw [if_neg hba, if_pos hab] at h2
            simp at h2
          · rw [if_neg hab] at h1
            by_cases hba : b < a
            · rw [if_pos hba] at h1; simp at h1
            · rw [if_neg hba] at h1
              rw [if_neg hba, if_neg hab] at h2
              have hEq : a = b := le_antisymm (le_of_not_lt hba) (le_of_not_lt hab)
              rw [hEq, ih bs h1 h2]

theorem charListLe_trans (x : List Char) : ∀ y z, charListLe x y = true →
    charListLe y z = true → charListLe x z = true := by
  induction x with
  | nil => intro y z h1 h2; rfl
  | cons a as ih =>
      intro y z h1 h2
      cases y with
      | nil => simp [charListLe] at h1
      | cons b bs =>
          cases z with
          | nil => simp [charListLe] at h2
          | cons c cs =>
              simp only [charListLe] at h1 h2 ⊢
              by_cases hab : a < b
              · by_cases hbc : b < c
                · rw [if_pos (lt_trans hab hbc)]
                · by_cases hcb : c < b
                  · rw [if_neg hbc, if_pos hcb] at h2; simp at h2
                  · have hbceq : b = c := le_antisymm (le_of_not_lt hcb) (le_of_not_lt hbc)
                    subst hbceq
                    rw [if_pos hab]
              · by_cases hba : b < a
                · rw [if_neg hab, if_pos hba] at h1; simp at h1
                · have habeq : a = b := le_antisymm (le_of_not_lt hba) (le_of_not_lt hab)
                  subst habeq
                  rw [if_neg hab] at h1
                  rw [if_neg hba] at h1
                  by_cases hac : a < c
                  · rw [if_pos hac]
                  · rw [if_neg hac] at h2 ⊢
                    by_cases hca : c < a
                    · rw [if_pos hca] at h2; simp at h2
                    · rw [if_neg hca] at h2 ⊢
                      exact ih bs cs h1 h2

theorem string_eq_of_data_eq (a b : String) (h : a.data = b.data) : a = b := by
  cases a
  cases b
  exact congrArg String.mk h

theorem nameLeb_total (a b : String × String) (h : nameLeb a b = false) :
    nameLeb b a = true := by
  unfold nameLeb at h ⊢
  by_cases he : (a.1 == b.1) = true
  · rw [if_pos he] at h
    have he1 : a.1 = b.1 := by simpa using he
    rw [if_pos (by simp [he1])]
    exact charListLe_total _ _ h
  · rw [if_neg he] at h
    have he1 : a.1 ≠ b.1 := by simpa using he
    rw [if_neg (by simp [Ne.symm he1])]
    exact charListLe_total _ _ h

theorem nameLeb_trans (a b c : String × String) (h1 : nameLeb a b = true)
    (h2 : nameLeb b c = true) : nameLeb a c = true := by
  unfold nameLeb at h1 h2 ⊢
  by_cases hab : (a.1 == b.1) = true
  · have hab1 : a.1 = b.1 := by simpa using hab
    rw [if_pos hab] at h1
    by_cases hbc : (b.1 == c.1) = true
    · have hbc1 : b.1 = c.1 := by simpa using hbc
      rw [if_pos hbc] at h2
      rw [if_pos (by simp [hab1.trans hbc1])]
      exact charListLe_trans _ _ _ h1 h2
    · rw [if_neg hbc] at h2
      have hbc1 : b.1 ≠ c.1 := by simpa using hbc
      rw [if_neg (by simp [hab1 ▸ hbc1]), hab1]
      exact h2
  · rw [if_neg hab] at h1
    have hab1 : a.1 ≠ b.1 := by simpa using hab
    by_cases hbc : (b.1 == c.1) = true
    · have hbc1 : b.1 = c.1 := by simpa using hbc
      rw [if_neg (by simp [hbc1 ▸ hab1]), ← hbc1]
      exact h1
    · rw [if_neg hbc] at h2
      by_cases hac : (a.1 == c.1) = true
      · have hac1 : a.1 = c.1 := by simpa using hac
        rw [← hac1] at h2
        have hdata : a.1.data = b.1.data := charListLe_antisymm _ _ h1 h2
        exact absurd (string_eq_of_data_eq _ _ hdata) hab1
      · rw [if_neg hac]
        exact charListLe_trans _ _ _ h1 h2

theorem mem_insertByName (d b : Nat × String × String)
    (l : List (Nat × String × String)) :
    b ∈ insertByName d l ↔ b = d ∨ b ∈ l := by
  induction l with
  | nil => simp [insertByName]
  | cons x xs ih =>
      simp only [insertByName]
      by_cases hc : nameLeb d.2 x.2 = true
      · rw [if_pos hc]; simp
      · rw [if_neg hc]
        simp only [List.mem_cons, ih]
        tauto

theorem pairwise_insertByName (d : Nat × String × String)
    (l : List (Nat × String × String))
    (h : List.Pairwise (fun a b => nameLeb a.2 b.2 = true) l) :
    List.Pairwise (fun a b => nameLeb a.2 b.2 = true) (insertByName d l) := by
  induction l with
  | nil => simp [insertByName]
  | cons x xs ih =>
      rcases List.pairwise_cons.mp h with ⟨hx, hxs⟩
      simp only [insertByName]
      by_cases hc : nameLeb d.2 x.2 = true
      · rw [if_pos hc]
        refine List.pairwise_cons.mpr ⟨?_, h⟩
        intro b hb
        rcases List.mem_cons.mp hb with rfl | hb
        · exact hc
        · exact nameLeb_trans _ _ _ hc (hx b hb)
      · rw [if_neg hc]
        refine List.pairwise_cons.mpr ⟨?_, ih hxs⟩
        intro b hb
        rcases (mem_insertByName d b xs).mp hb with rfl | hb
        · exact nameLeb_total _ _ (by simpa using hc)
        · exact hx b hb

theorem pairwise_sortByName (l : List (Nat × String × String)) :
    List.Pairwise (fun a b => nameLeb a.2 b.2 = true) (sortByName l) := by
  induction l with
  | nil => simp [sortByName]
  | cons x xs ih => exact pairwise_insertByName x (sortByName xs) ih

/-- C8 counterexample: the MySQL variant's doctor query for a department has
no ORDER BY, so the rows are not returned in name order — here the table
holds "Zed" before "Ann" and the query returns them in that order. -/
theorem c8_counterexample_mysql_unordered :
    ¬ List.Pairwise (fun a b : Nat × String × String => nameLeb a.2 b.2 = true)
      (on_dept_selected_doctors
        [{ doctor_id := 1, first_name := "Zed", last_name := "Ab", department_id := 7 },
         { doctor_id := 2, first_name := "Ann", last_name := "Bo", department_id := 7 }]
        7) := by
  decide

/-- C8 (amended): the Neo4j variant returns a department's doctors ordered
by (first_name, last_name); the MySQL variant's `on_dept_selected` issues no
ORDER BY and returns the matching rows in the order the store yields them
(table order), without sorting them by name. -/
theorem c8_amended_doctor_ordering (doctors : List DoctorRow) (dept : Nat) :
    List.Pairwise (fun a b : Nat × String × String => nameLeb a.2 b.2 = true)
      (get_doctors_by_department doctors dept) ∧
    on_dept_selected_doctors doctors dept =
      (doctors.filter (fun d => d.department_id == dept)).map
        (fun d => (d.doctor_id, d.first_name, d.last_name)) :=
  ⟨pairwise_sortByName _, rfl⟩

/-! ## C9: files by observation, mis-indented append -/

/-- C9: `get_files_by_observation` returns at most one entry: the empty list
when no MedicalFile is linked to the observation (the unbound `mf` raises a
NameError that the handler turns into `[]`), and otherwise a single entry —
the last row of the query result — even when several files are linked. -/
theorem c9_files_by_observation_at_most_one (g : GraphState) (oid : Nat) :
    (get_files_by_observation g oid).length ≤ 1 ∧
    (g.medical_files.filter (fun f => g.has_file.contains (oid, f.id)) = [] →
      get_files_by_observation g oid = []) ∧
    (∀ (l : List GMedicalFile) (mf : GMedicalFile),
      linked_files_sorted g oid = l ++ [mf] →
      get_files_by_observation g oid = [mf]) := by
  refine ⟨?_, ?_, ?_⟩
  · unfold get_files_by_observation
    cases h : (linked_files_sorted g oid).getLast? <;> simp
  · intro h
    unfold get_files_by_observation
    rw [show linked_files_sorted g oid = [] from by
          unfold linked_files_sorted
          rw [h]
          rfl]
    rfl
  · intro l mf h
    unfold get_files_by_observation
    rw [h, List.getLast?_concat]

/-- Witness for C9: two files linked to observation 7 — the result keeps only
the last row — and an observation 8 with nothing linked. -/
theorem c9_files_by_observation_at_most_one_witness :
    ((get_files_by_observation
        { counter := none, doctors := [], patients := [], appointments := [],
          treats := [], doctor_has_appointment := [], patient_has_appointment := [],
          medical_files :=
            [{ id := 1, filename := "a.png", file_type := "image/png", file_size := 3,
               upload_date := 10, description := none },
             { id := 2, filename := "b.png", file_type := "image/png", file_size := 4,
               upload_date := 20, description := none }],
          has_file := [(7, 1), (7, 2)] } 7).length ≤ 1 ∧
     get_files_by_observation
        { counter := none, doctors := [], patients := [], appointments := [],
          treats := [], doctor_has_appointment := [], patient_has_appointment := [],
          medical_files :=
            [{ id := 1, filename := "a.png", file_type := "image/png", file_size := 3,
               upload_date := 10, description := none },
             { id := 2, filename := "b.png", file_type := "image/png", file_size := 4,
               upload_date := 20, description := none }],
          has_file := [(7, 1), (7, 2)] } 7 =
       [{ id := 1, filename := "a.png", file_type := "image/png", file_size := 3,
          upload_date := 10, description := none }]) ∧
    get_files_by_observation
        { counter := none, doctors := [], patients := [], appointments := [],
          treats := [], doctor_has_appointment := [], patient_has_appointment := [],
          medical_files :=
            [{ id := 1, filename := "a.png", file_type := "image/png", file_size := 3,
               upload_date := 10, description := none },
             { id := 2, filename := "b.png", file_type := "image/png", file_size := 4,
               upload_date := 20, description := none }],
          has_file := [(7, 1), (7, 2)] } 8 = [] :=
  ⟨⟨(c9_files_by_observation_at_most_one
       { counter := none, doctors := [], patients := [], appointments := [],
         treats := [], doctor_has_appointment := [], patient_has_appointment := [],
         medical_files :=
           [{ id := 1, filename := "a.png", file_type := "image/png", file_size := 3,
              upload_date := 10, description := none },
            { id := 2, filename := "b.png", file_type := "image/png", file_size := 4,
              upload_date := 20, description := none }],
         has_file := [(7, 1), (7, 2)] } 7).1,
    (c9_files_by_observation_at_most_one
       { counter := none, doctors := [], patients := [], appointments := [],
         treats := [], doctor_has_appointment := [], patient_has_appointment := [],
         medical_files :=
           [{ id := 1, filename := "a.png", file_type := "image/png", file_size := 3,
              upload_date := 10, description := none },
            { id := 2, filename := "b.png", file_type := "image/png", file_size := 4,
              upload_date := 20, description := none }],
         has_file := [(7, 1), (7, 2)] } 7).2.2
      [{ id := 2, filename := "b.png", file_type := "image/png", file_size := 4,
         upload_date := 20, description := none }]
      { id := 1, filename := "a.png", file_type := "image/png", file_size := 3,
        upload_date := 10, description := none }
      (by decide)⟩,
   (c9_files_by_observation_at_most_one
      { counter := none, doctors := [], patients := [], appointments := [],
        treats := [], doctor_has_appointment := [], patient_has_appointment := [],
        medical_files :=
          [{ id := 1, filename := "a.png", file_type := "image/png", file_size := 3,
             upload_date := 10, description := none },
           { id := 2, filename := "b.png", file_type := "image/png", file_size := 4,
             upload_date := 20, description := none }],
        has_file := [(7, 1), (7, 2)] } 8).2.1 (by decide)⟩

end ClinicSpec
